import Mathlib

/-!
Shallow embedding of the robopet-web alert dashboard client
(src/app/page.tsx together with the page variants kept in
src/unnamed/part_001 and src/unnamed/part_002).  React refs and
useState cells become explicit record fields; every invocation of
fetchAlertsOnce / dismissAlert / playDing / the media-resolution
effect becomes a pure state-transition function whose network and
browser outcomes are supplied by an environment record.
-/

namespace Robopet

/-- An id value as delivered by the backend: ids may arrive as strings
or as numbers (the source types declare trigger_event and Event.id as
string or number). -/
inductive IdVal where
  | str (s : String)
  | num (n : Int)
deriving DecidableEq, Repr

/-- JavaScript String(v) applied to an id value. -/
def IdVal.toStr : IdVal → String
  | .str s => s
  | .num n => toString n

/-- A row of the alerts table as selected by the client. -/
structure AlertRow where
  id : String
  created_at : String
  status : String
  trigger_event : IdVal
  user_id : String
deriving DecidableEq, Repr

/-- A row of the events table as selected by the client. -/
structure EventRow where
  id : IdVal
  type : String
deriving DecidableEq, Repr

/-- An alert joined with its resolved event (null when no fetched
event row matches). -/
structure AlertWithEvent where
  alert : AlertRow
  event : Option EventRow
deriving DecidableEq, Repr

/-- Model of JavaScript Array.from(new Set(l)): duplicates removed,
keeping the first occurrence of each element.  the List.dedup of Mathlib
keeps the last occurrence, so first-occurrence dedup is dedup of the
reversed list, reversed back. -/
def jsDedup {α : Type} [DecidableEq α] (l : List α) : List α :=
  l.reverse.dedup.reverse

/-- Model of building `new Map(rows.map(e => [String(e.id), e]))` and
then calling .get k: for duplicate keys the later pair overwrites the
earlier one, so the lookup returns the last matching row. -/
def lookupLast (rows : List EventRow) (k : String) : Option EventRow :=
  rows.reverse.find? (fun e => e.id.toStr == k)

/-- The client-side join of fetchAlertsOnce: each alert is paired with
the fetched event whose stringified id equals the stringified
trigger_event, or null when none matches. -/
def joinEvents (eventRows : List EventRow) (baseAlerts : List AlertRow) : List AlertWithEvent :=
  baseAlerts.map (fun a => { alert := a, event := lookupLast eventRows a.trigger_event.toStr })

/-- The id list handed to the batched events lookup:
`baseAlerts.length ? Array.from(new Set(baseAlerts.map(a => a.trigger_event))) : []`. -/
def referencedEventIds (baseAlerts : List AlertRow) : List IdVal :=
  if baseAlerts.length ≠ 0 then jsDedup (baseAlerts.map (·.trigger_event)) else []

/-- Network outcomes for one poll cycle.  A query either fails (with
the optional .message of the thrown error, the ?? fallback is applied by
the caller) or yields the rows; the events result is a function of the
id batch the client sends. -/
structure FetchEnv where
  alertsResult : Except (Option String) (List AlertRow)
  eventsResult : List IdVal → Except (Option String) (List EventRow)

/-- The try-block body of fetchAlertsOnce up to the joined list: fetch
the alerts, collect the distinct referenced event ids, issue the
batched events lookup only when that list is non-empty, and join.
Either thrown error propagates to the catch. -/
def fetchJoin (env : FetchEnv) : Except (Option String) (List AlertWithEvent) :=
  match env.alertsResult with
  | .error e => .error e
  | .ok baseAlerts =>
    let eventIds := referencedEventIds baseAlerts
    match (if eventIds.length > 0 then env.eventsResult eventIds else .ok []) with
    | .error e => .error e
    | .ok eventRows => .ok (joinEvents eventRows baseAlerts)

/-- The stringified ids of a joined batch (`String(a.id)` per alert). -/
def batchIds (ws : List AlertWithEvent) : List String :=
  ws.map (fun a => a.alert.id)

/-! ### The part_001 poller variant (seenAlertIdsRef + playDing) -/

/-- Poller state of the src/unnamed/part_001 page variant.  `dings`
counts the playDing invocations issued so far (the audio-internal
state is modelled separately). -/
structure PollState where
  alerts : List AlertWithEvent
  loadingAlerts : Bool
  alertsError : Option String
  seenAlertIds : Finset String
  isFirstLoad : Bool
  dings : Nat

/-- The finally-block of fetchAlertsOnce: on a first load, clear the
loading indicator and drop the first-load flag. -/
def finallyStep (s : PollState) : PollState :=
  if s.isFirstLoad then { s with loadingAlerts := false, isFirstLoad := false } else s

/-- One fetchAlertsOnce call of the part_001 variant: clear the error,
show the loading indicator on a first load, run the fetch/join; on
success detect newly arrived ids against seenAlertIdsRef (adding the
new ones and playing one ding when any exist) or, on a first load,
seed the seen set; on failure set the error message; finally clear the
first-load bookkeeping. -/
def fetchAlertsOnce1 (env : FetchEnv) (s : PollState) : PollState :=
  let s0 := { s with alertsError := none,
                     loadingAlerts := if s.isFirstLoad then true else s.loadingAlerts }
  match fetchJoin env with
  | .error e => finallyStep { s0 with alertsError := some (e.getD "Failed to load alerts") }
  | .ok withEvents =>
    let s1 :=
      if s0.isFirstLoad then
        { s0 with seenAlertIds := (batchIds withEvents).toFinset }
      else
        let newOnes := (batchIds withEvents).filter (fun id => decide (id ∉ s0.seenAlertIds))
        if newOnes ≠ [] then
          { s0 with seenAlertIds := s0.seenAlertIds ∪ newOnes.toFinset, dings := s0.dings + 1 }
        else s0
    finallyStep { s1 with alerts := withEvents }

/-- The ref resets at the top of the part_001 poller effect, executed
whenever the effect re-runs because the user identity changed:
`seenAlertIdsRef.current = new Set(); isFirstLoadRef.current = true;`. -/
def onUserChange1 (s : PollState) : PollState :=
  { s with seenAlertIds := ∅, isFirstLoad := true }

/-! ### The part_002 poller variant (knownAlertIdsRef + shouldSignalNew) -/

/-- Poller state of the second page variant kept in
src/unnamed/part_002 (the one with knownAlertIdsRef). -/
structure PollState2 where
  alerts : List AlertWithEvent
  loadingAlerts : Bool
  alertsError : Option String
  knownAlertIds : Finset String
  isFirstLoad : Bool
  dings : Nat

/-- The finally-block of the part_002 fetchAlertsOnce (identical to
the part_001 one). -/
def finallyStep2 (s : PollState2) : PollState2 :=
  if s.isFirstLoad then { s with loadingAlerts := false, isFirstLoad := false } else s

/-- One fetchAlertsOnce call of the part_002 knownAlertIdsRef variant:
after the fetch/join, when not on a first load and shouldSignalNew is
set, play one ding if any current id is missing from
knownAlertIdsRef; then unconditionally replace knownAlertIdsRef with
the current id set.  The initial fetch of the effect passes
shouldSignalNew = false, every interval fetch passes true. -/
def fetchAlertsOnce2 (shouldSignalNew : Bool) (env : FetchEnv) (s : PollState2) : PollState2 :=
  let s0 := { s with alertsError := none,
                     loadingAlerts := if s.isFirstLoad then true else s.loadingAlerts }
  match fetchJoin env with
  | .error e => finallyStep2 { s0 with alertsError := some (e.getD "Failed to load alerts") }
  | .ok withEvents =>
    let currentIds := (batchIds withEvents).toFinset
    let hasNew : Bool := decide (¬ currentIds ⊆ s0.knownAlertIds)
    let s1 :=
      if s0.isFirstLoad = false ∧ shouldSignalNew = true ∧ hasNew = true then
        { s0 with dings := s0.dings + 1 }
      else s0
    finallyStep2 { s1 with knownAlertIds := currentIds, alerts := withEvents }

/-- The top of the part_002 poller effect, executed whenever the
effect re-runs because the user identity changed: unlike part_001 it
performs no ref reset whatsoever before scheduling the fetches, so
knownAlertIdsRef and isFirstLoadRef keep their previous values. -/
def onUserChange2 (s : PollState2) : PollState2 :=
  s

/-! ### The src/app/page.tsx variant: fetch, dismissal -/

/-- The page.tsx state touched by fetchAlertsOnce and dismissAlert.
dismissingById models the Record of per-alert busy flags (a missing
key reads as false, as JS undefined is falsy). -/
structure PageState where
  alerts : List AlertWithEvent
  loadingAlerts : Bool
  alertsError : Option String
  dismissingById : String → Bool
  isFirstLoad : Bool

/-- The finally-block of the page.tsx fetchAlertsOnce. -/
def finallyStepPage (s : PageState) : PageState :=
  if s.isFirstLoad then { s with loadingAlerts := false, isFirstLoad := false } else s

/-- One fetchAlertsOnce call of page.tsx: same fetch/join and error
handling as the variants, with no seen-id reconciliation. -/
def fetchAlertsOncePage (env : FetchEnv) (s : PageState) : PageState :=
  let s0 := { s with alertsError := none,
                     loadingAlerts := if s.isFirstLoad then true else s.loadingAlerts }
  match fetchJoin env with
  | .error e => finallyStepPage { s0 with alertsError := some (e.getD "Failed to load alerts") }
  | .ok withEvents => finallyStepPage { s0 with alerts := withEvents }

/-- One dismissAlert call of page.tsx.  The outcome models the remote
dismiss-alert invocation: ok on success, or the optional .message
of the thrown error on failure.  The error string is cleared up front,
the busy flag for the id is raised, on success the alert is filtered
out of the list, on failure the error message is surfaced, and the
finally-block lowers the busy flag on every path. -/
def dismissAlert (alertId : String) (outcome : Except (Option String) Unit) (s : PageState) : PageState :=
  let s0 := { s with alertsError := none,
                     dismissingById := fun k => if k = alertId then true else s.dismissingById k }
  let s1 :=
    match outcome with
    | .ok _ => { s0 with alerts := s0.alerts.filter (fun a => decide (a.alert.id ≠ alertId)) }
    | .error e => { s0 with alertsError := some (e.getD "Failed to dismiss alert") }
  { s1 with dismissingById := fun k => if k = alertId then false else s1.dismissingById k }

/-! ### Media resolution -/

inductive MediaKind where
  | image
  | video
deriving DecidableEq, Repr

structure Media where
  url : String
  kind : MediaKind
deriving DecidableEq, Repr

/-- Storage/network outcomes for the media probes.  headOk url holds
when a HEAD request to url succeeds with a 2xx response; getOk url
when the ranged GET does; publicUrl maps an object path to the
publicly-servable URL the client derives for it; signedUrl path is the
time-limited signed URL when createSignedUrl succeeds and yields one
(none covers both an error result and a thrown exception). -/
structure MediaEnv where
  headOk : String → Bool
  getOk : String → Bool
  publicUrl : String → String
  signedUrl : String → Option String

/-- urlExists: try HEAD and return true when it is ok; otherwise
(network error or non-2xx alike) fall back to a ranged GET requesting
only the first byte, returning its ok status (false when it throws). -/
def urlExists (env : MediaEnv) (url : String) : Bool :=
  env.headOk url || env.getOk url

/-- page.tsx candidate extension lists:
candidateImageExts = jpg, candidateVideoExts = mov, video before image. -/
def candidateImageExtsPage : List String := ["jpg"]

def candidateVideoExtsPage : List String := ["mov"]

def candidateExtsPage : List String := candidateVideoExtsPage ++ candidateImageExtsPage

/-- JavaScript String.prototype.toLowerCase, modelled charwise on the
character data of the string. -/
def jsToLower (s : String) : String :=
  String.mk (s.data.map Char.toLower)

/-- inferKindFromExt (identical in page.tsx and part_002): image iff
the lowercased extension is a member of the image-extension list. -/
def inferKindFromExt (ext : String) : MediaKind :=
  if jsToLower ext ∈ candidateImageExtsPage then .image else .video

/-- The page.tsx resolveMediaForEventId loop over a candidate list:
for each extension build the path, derive the public URL and, when it
is non-empty (truthy) and the probe confirms existence, return it with
the kind inferred from the extension; otherwise continue; null when
the candidates are exhausted. -/
def resolveLoopPage (env : MediaEnv) (eventId : String) : List String → Option Media
  | [] => none
  | ext :: rest =>
    let path := eventId ++ "." ++ ext
    let publicUrl := env.publicUrl path
    if publicUrl ≠ "" ∧ urlExists env publicUrl = true then
      some { url := publicUrl, kind := inferKindFromExt ext }
    else resolveLoopPage env eventId rest

/-- page.tsx resolveMediaForEventId: the loop run over the page.tsx
candidate list (mov, then jpg). -/
def resolveMediaForEventIdPage (env : MediaEnv) (eventId : String) : Option Media :=
  resolveLoopPage env eventId candidateExtsPage

/-- part_002 candidate extension lists:
candidateImageExts = jpg, candidateVideoExts = mov, mp4, webm. -/
def candidateImageExts2 : List String := ["jpg"]

def candidateVideoExts2 : List String := ["mov", "mp4", "webm"]

def candidateExts2 : List String := candidateVideoExts2 ++ candidateImageExts2

/-- The part_002 resolveMediaForEventId loop: per extension, first try
the public URL; when that fails, try a signed URL for the same path
(skipping on error) and probe it; continue with the next extension
otherwise; null when the candidates are exhausted. -/
def resolveLoop2 (env : MediaEnv) (eventId : String) : List String → Option Media
  | [] => none
  | ext :: rest =>
    let path := eventId ++ "." ++ ext
    let publicUrl := env.publicUrl path
    if publicUrl ≠ "" ∧ urlExists env publicUrl = true then
      some { url := publicUrl, kind := inferKindFromExt ext }
    else
      match env.signedUrl path with
      | some su =>
        if urlExists env su = true then some { url := su, kind := inferKindFromExt ext }
        else resolveLoop2 env eventId rest
      | none => resolveLoop2 env eventId rest

/-- part_002 resolveMediaForEventId: the loop run over the part_002
candidate list (mov, mp4, webm, then jpg). -/
def resolveMediaForEventId2 (env : MediaEnv) (eventId : String) : Option Media :=
  resolveLoop2 env eventId candidateExts2

/-- A per-extension probe as an abstract function from an object path
to the winning URL (none when the extension does not resolve). -/
def probePublic (env : MediaEnv) (path : String) : Option String :=
  let publicUrl := env.publicUrl path
  if publicUrl ≠ "" ∧ urlExists env publicUrl = true then some publicUrl else none

/-- The part_002 probe: the public URL probe, then the signed URL
fallback. -/
def probePublicOrSigned (env : MediaEnv) (path : String) : Option String :=
  match probePublic env path with
  | some u => some u
  | none =>
    match env.signedUrl path with
    | some su => if urlExists env su = true then some su else none
    | none => none

/-- Spec-side statement of the resolution algorithm, written after the
words of the specification: walk the candidate extensions in order,
the first extension whose probe of path eventId.ext succeeds wins with
the URL the probe produced and the kind inferred from the extension,
and the result is null when no candidate resolves. -/
def specResolve (probe : String → Option String) (eventId : String) : List String → Option Media
  | [] => none
  | ext :: rest =>
    match probe (eventId ++ "." ++ ext) with
    | some u => some { url := u, kind := inferKindFromExt ext }
    | none => specResolve probe eventId rest

/-! ### The media-resolution cache and in-progress set (page.tsx) -/

/-- Model of the eventMediaById Record: an association list where an
update conses the new pair in front, so a lookup takes the first
match.  A key that is absent reads as undefined (none here); a present
key may hold either a resolved Media value or JS null (some none /
some (some m)). -/
def recGet {α : Type} (m : List (String × α)) (k : String) : Option α :=
  (m.find? (fun p => p.1 == k)).map (·.2)

/-- Model of a setEventMediaById update spreading the previous
record and overriding key k with value v. -/
def cacheInsert (m : List (String × Option Media)) (k : String) (v : Option Media) :
    List (String × Option Media) :=
  (k, v) :: m

/-- The body of the page.tsx media-resolution effect, run over the
deduplicated stringified event ids of the active alerts in order: an
id starts a probe exactly when its cache entry is undefined and it is
not in resolvingMediaIdsRef; a started id is added to the in-progress
set synchronously before its probe begins.  The returned list holds
the ids for which a probe was started. -/
def mediaEffectGo (cache : List (String × Option Media)) :
    List String → Finset String → List String
  | [], _ => []
  | id :: rest, resolving =>
    if recGet cache id = none ∧ id ∉ resolving then
      id :: mediaEffectGo cache rest (insert id resolving)
    else
      mediaEffectGo cache rest resolving

/-- The page.tsx media-resolution effect: probe starts for the unique
stringified trigger_event ids of the current alerts. -/
def mediaEffectStarts (cache : List (String × Option Media)) (resolving : Finset String)
    (alerts : List AlertWithEvent) : List String :=
  mediaEffectGo cache (jsDedup (alerts.map (fun a => a.alert.trigger_event.toStr))) resolving

/-- togglePastExpanded of page.tsx, restricted to its probe decision:
a probe for the stringified event id starts exactly when the row flips
to expanded, the cache entry is undefined, and the id is not already
being resolved. -/
def toggleStartsProbe (expanded : List (String × Bool)) (cache : List (String × Option Media))
    (resolving : Finset String) (alertId : String) (eventKey : String) : Bool :=
  let nextExpanded := !((recGet expanded alertId).getD false)
  nextExpanded && decide (recGet cache eventKey = none) && decide (eventKey ∉ resolving)

/-! ### The part_001 audio cue (playDing) -/

/-- The AudioContext as far as playDing observes it. -/
structure AudioCtx where
  suspended : Bool
deriving DecidableEq, Repr

/-- Audio-subsystem state of the part_001 variant: the lazily created
context (none when construction was impossible), whether the
synthesized ding buffer is cached, and whether a user gesture has
unlocked audio. -/
structure AudioState where
  ctx : Option AudioCtx
  dingBufferLoaded : Bool
  unlocked : Bool
deriving DecidableEq, Repr

/-- Browser outcomes for one playDing call: whether ctx.resume()
succeeds, whether the buffer synthesis in loadDingBuffer succeeds, and
whether creating/connecting/starting the buffer source succeeds. -/
structure AudioEnv where
  resumeOk : Bool
  synthOk : Bool
  startOk : Bool

/-- The try-block body of the part_001 playDing, before the catch: an
error at any await/call aborts with the audio state reached at that
point; a normal completion reports whether a sound was started (false
only on the early return for a missing context). -/
def playDingBody (env : AudioEnv) (a : AudioState) : Except AudioState (AudioState × Bool) :=
  match a.ctx with
  | none => .ok (a, false)
  | some c =>
    let afterResume : Except AudioState AudioState :=
      if c.suspended = true ∧ a.unlocked = true then
        if env.resumeOk then .ok { a with ctx := some { suspended := false } } else .error a
      else .ok a
    match afterResume with
    | .error a1 => .error a1
    | .ok a1 =>
      let afterBuffer : Except AudioState AudioState :=
        if a1.dingBufferLoaded then .ok a1
        else if env.synthOk then .ok { a1 with dingBufferLoaded := true } else .error a1
      match afterBuffer with
      | .error a2 => .error a2
      | .ok a2 => if env.startOk then .ok (a2, true) else .error a2

/-- The part_001 playDing: the body wrapped in its catch-all, which
swallows every failure (sound is best-effort) and returns normally. -/
def playDing (env : AudioEnv) (a : AudioState) : AudioState × Bool :=
  match playDingBody env a with
  | .ok r => r
  | .error a1 => (a1, false)

/-- The whole client state of the part_001 page, as visible to
playDing: the poller state plus the audio subsystem. -/
structure FullState where
  poll : PollState
  audio : AudioState

/-- playDing acting on the whole client state. -/
def playDingFull (env : AudioEnv) (s : FullState) : FullState × Bool :=
  ({ poll := s.poll, audio := (playDing env s.audio).1 }, (playDing env s.audio).2)

/-! ### The part_002 audio cue (oscillator with HTMLAudioElement fallback) -/

/-- Audio-subsystem state of the part_002 knownAlertIdsRef variant. -/
structure Audio2State where
  ctx : Option AudioCtx
  soundEnabled : Bool
  beepUrl : Option String
  audioElPresent : Bool
deriving DecidableEq, Repr

/-- Browser outcomes for one part_002 playDing call. -/
structure AudioEnv2 where
  acOk : Bool
  newCtxSuspended : Bool
  resumeOk : Bool
  oscOk : Bool
  beepGenOk : Bool
  elPlayOk : Bool

/-- The synthesized WAV data URL produced by createBeepDataUrl.  Its
byte content never influences control flow, so it is abstracted to a
fixed representative string. -/
def beepDataUrl : String := "data:audio/wav;base64,beep"

/-- ensureAudioContext of part_002: return the cached context, or
construct one when the constructor is available and does not throw;
every failure yields null through the internal catch. -/
def ensureAudioContext2 (env : AudioEnv2) (a : Audio2State) : Audio2State × Option AudioCtx :=
  match a.ctx with
  | some c => (a, some c)
  | none =>
    if env.acOk then
      let c : AudioCtx := { suspended := env.newCtxSuspended }
      ({ a with ctx := some c }, some c)
    else (a, none)

/-- The HTMLAudioElement fallback try-block of the part_002 playDing:
generate the beep data URL when missing (a throw there is caught and
skips the element), then play the element when present; every failure
is swallowed. -/
def playDingFallbackEl (env : AudioEnv2) (a : Audio2State) : Audio2State × Bool :=
  if a.beepUrl = none ∧ env.beepGenOk = false then (a, false)
  else
    let a1 := if a.beepUrl = none then { a with beepUrl := some beepDataUrl } else a
    if a1.audioElPresent ∧ env.elPlayOk = true then (a1, true) else (a1, false)

/-- The part_002 playDing: return silently when sound is disabled; try
Web Audio first (resume failures swallowed inline, oscillator success
returns), and fall back to the HTMLAudioElement path when the context
is unavailable or the oscillator path throws.  Both try-blocks swallow
their failures. -/
def playDing2 (env : AudioEnv2) (a : Audio2State) : Audio2State × Bool :=
  if a.soundEnabled = false then (a, false)
  else
    let e := ensureAudioContext2 env a
    match e.2 with
    | some c =>
      let a1 :=
        if c.suspended = true ∧ env.resumeOk = true then { e.1 with ctx := some { suspended := false } }
        else e.1
      if env.oscOk then (a1, true) else playDingFallbackEl env a1
    | none => playDingFallbackEl env e.1

/-- The whole client state of the part_002 page, as visible to its
playDing. -/
structure FullState2 where
  poll : PollState2
  audio : Audio2State

/-- The part_002 playDing acting on the whole client state. -/
def playDingFull2 (env : AudioEnv2) (s : FullState2) : FullState2 × Bool :=
  ({ poll := s.poll, audio := (playDing2 env s.audio).1 }, (playDing2 env s.audio).2)

/-! ### Helper lemmas -/

lemma mem_jsDedup {α : Type} [DecidableEq α] (l : List α) (a : α) :
    a ∈ jsDedup l ↔ a ∈ l := by
  simp [jsDedup]

lemma nodup_jsDedup {α : Type} [DecidableEq α] (l : List α) : (jsDedup l).Nodup := by
  simp only [jsDedup, List.nodup_reverse]
  exact List.nodup_dedup _

lemma filter_not_mem_ne_nil (l : List String) (s : Finset String) :
    (l.filter (fun id => decide (id ∉ s)) ≠ []) ↔ (l.toFinset \ s ≠ ∅) := by
  simp [List.filter_eq_nil_iff, Finset.sdiff_eq_empty_iff_subset, Finset.subset_iff]

@[simp] lemma finallyStep_alerts (s : PollState) : (finallyStep s).alerts = s.alerts := by
  unfold finallyStep
  split <;> rfl

@[simp] lemma finallyStep_alertsError (s : PollState) :
    (finallyStep s).alertsError = s.alertsError := by
  unfold finallyStep
  split <;> rfl

@[simp] lemma finallyStep_seenAlertIds (s : PollState) :
    (finallyStep s).seenAlertIds = s.seenAlertIds := by
  unfold finallyStep
  split <;> rfl

@[simp] lemma finallyStep_dings (s : PollState) : (finallyStep s).dings = s.dings := by
  unfold finallyStep
  split <;> rfl

@[simp] lemma finallyStep2_alerts (s : PollState2) : (finallyStep2 s).alerts = s.alerts := by
  unfold finallyStep2
  split <;> rfl

@[simp] lemma finallyStep2_alertsError (s : PollState2) :
    (finallyStep2 s).alertsError = s.alertsError := by
  unfold finallyStep2
  split <;> rfl

@[simp] lemma finallyStep2_knownAlertIds (s : PollState2) :
    (finallyStep2 s).knownAlertIds = s.knownAlertIds := by
  unfold finallyStep2
  split <;> rfl

@[simp] lemma finallyStep2_dings (s : PollState2) : (finallyStep2 s).dings = s.dings := by
  unfold finallyStep2
  split <;> rfl

@[simp] lemma finallyStepPage_alerts (s : PageState) : (finallyStepPage s).alerts = s.alerts := by
  unfold finallyStepPage
  split <;> rfl

@[simp] lemma finallyStepPage_alertsError (s : PageState) :
    (finallyStepPage s).alertsError = s.alertsError := by
  unfold finallyStepPage
  split <;> rfl

@[simp] lemma finallyStepPage_dismissingById (s : PageState) :
    (finallyStepPage s).dismissingById = s.dismissingById := by
  unfold finallyStepPage
  split <;> rfl

/-! ### Concrete fixtures used by witnesses and counterexamples -/

def wAlertB : AlertRow :=
  { id := "b", created_at := "t1", status := "active", trigger_event := .num 7, user_id := "u1" }

def wEnvB : FetchEnv :=
  { alertsResult := .ok [wAlertB], eventsResult := fun _ => .ok [] }

def wWithEventsB : List AlertWithEvent := [{ alert := wAlertB, event := none }]

def wS1 : PollState :=
  { alerts := [], loadingAlerts := false, alertsError := none,
    seenAlertIds := {"a"}, isFirstLoad := false, dings := 0 }

def wS2 : PollState2 :=
  { alerts := [], loadingAlerts := false, alertsError := none,
    knownAlertIds := {"a"}, isFirstLoad := false, dings := 0 }

/-! ### Claims -/

/-- Claim C1: for every poll cycle after the first successful fetch
(where the first-load flag is already down), the arrival notification
fires iff the fetched id set minus the previous seen-id set is
non-empty, and it fires exactly once for the whole batch: in both the
part_001 and the part_002 variants the ding counter rises by exactly
one when that set difference is non-empty and is unchanged otherwise. -/
theorem claim_c1 :
    (∀ (env : FetchEnv) (s : PollState) (ws : List AlertWithEvent),
      s.isFirstLoad = false → fetchJoin env = .ok ws →
      (fetchAlertsOnce1 env s).dings =
        s.dings + (if (batchIds ws).toFinset \ s.seenAlertIds ≠ ∅ then 1 else 0)) ∧
    (∀ (env : FetchEnv) (s : PollState2) (ws : List AlertWithEvent),
      s.isFirstLoad = false → fetchJoin env = .ok ws →
      (fetchAlertsOnce2 true env s).dings =
        s.dings + (if (batchIds ws).toFinset \ s.knownAlertIds ≠ ∅ then 1 else 0)) := by
  constructor
  · intro env s ws h1 hok
    by_cases hnew : (batchIds ws).toFinset \ s.seenAlertIds ≠ ∅
    · have hex : ∃ x ∈ batchIds ws, x ∉ s.seenAlertIds := by
        rw [ne_eq, Finset.sdiff_eq_empty_iff_subset, Finset.subset_iff] at hnew
        push_neg at hnew
        simpa using hnew
      simp [fetchAlertsOnce1, hok, h1, finallyStep, hex, hnew]
    · have hex : ¬ ∃ x ∈ batchIds ws, x ∉ s.seenAlertIds := by
        rw [not_ne_iff, Finset.sdiff_eq_empty_iff_subset, Finset.subset_iff] at hnew
        push_neg
        intro x hx
        exact hnew (List.mem_toFinset.mpr hx)
      simp [fetchAlertsOnce1, hok, h1, finallyStep, hex, hnew]
  · intro env s ws h1 hok
    by_cases hnew : (batchIds ws).toFinset \ s.knownAlertIds ≠ ∅
    · have hsub : ¬ (batchIds ws).toFinset ⊆ s.knownAlertIds := by
        intro hc
        exact hnew (Finset.sdiff_eq_empty_iff_subset.mpr hc)
      simp [fetchAlertsOnce2, hok, h1, finallyStep2, hsub, hnew]
    · have hsub : (batchIds ws).toFinset ⊆ s.knownAlertIds := by
        rw [not_ne_iff] at hnew
        exact Finset.sdiff_eq_empty_iff_subset.mp hnew
      simp [fetchAlertsOnce2, hok, h1, finallyStep2, hsub, hnew]

/-- Witness for claim C1: a concrete cycle in which alert id b arrives
while only a was seen, in both variants. -/
theorem claim_c1_witness :
    (wS1.isFirstLoad = false ∧ fetchJoin wEnvB = .ok wWithEventsB ∧
      (fetchAlertsOnce1 wEnvB wS1).dings =
        wS1.dings + (if (batchIds wWithEventsB).toFinset \ wS1.seenAlertIds ≠ ∅ then 1 else 0)) ∧
    (wS2.isFirstLoad = false ∧ fetchJoin wEnvB = .ok wWithEventsB ∧
      (fetchAlertsOnce2 true wEnvB wS2).dings =
        wS2.dings + (if (batchIds wWithEventsB).toFinset \ wS2.knownAlertIds ≠ ∅ then 1 else 0)) :=
  ⟨⟨rfl, rfl, claim_c1.1 wEnvB wS1 wWithEventsB rfl rfl⟩,
   ⟨rfl, rfl, claim_c1.2 wEnvB wS2 wWithEventsB rfl rfl⟩⟩

/-- A successful fetch returning no alerts at all. -/
def wEnvEmpty : FetchEnv :=
  { alertsResult := .ok [], eventsResult := fun _ => .ok [] }

/-- A fetch whose alerts query throws with message boom. -/
def wEnvFail : FetchEnv :=
  { alertsResult := .error (some "boom"), eventsResult := fun _ => .ok [] }

/-- A part_001 state before its very first fetch. -/
def wS1First : PollState :=
  { alerts := [], loadingAlerts := false, alertsError := none,
    seenAlertIds := ∅, isFirstLoad := true, dings := 0 }

/-- Counterexample to claim C2: in the part_001 variant, a successful
non-first poll whose batch is empty leaves the previously seen id a in
the seen-id set, so the seen-id set does not equal the fetched id set
(ids absent from the latest batch are not removed). -/
theorem claim_c2_counterexample :
    fetchJoin wEnvEmpty = .ok [] ∧ wS1.isFirstLoad = false ∧
    (fetchAlertsOnce1 wEnvEmpty wS1).seenAlertIds ≠
      (batchIds ([] : List AlertWithEvent)).toFinset := by
  refine ⟨rfl, rfl, ?_⟩
  decide

lemma union_filter_not_mem (ids : List String) (seen : Finset String) :
    seen ∪ (ids.toFinset.filter (fun x => x ∉ seen)) = seen ∪ ids.toFinset := by
  ext x
  simp only [Finset.mem_union, Finset.mem_filter, List.mem_toFinset]
  tauto

/-- Claim C2 amended: on a successful poll the part_002 variant always
replaces the seen-id set with the batch id set, and the part_001
variant does so only on the first load; on later part_001 polls the
seen-id set becomes its previous value united with the batch ids, so
ids absent from the latest batch are retained rather than removed.  On
a failed poll both variants leave the seen-id set unchanged. -/
theorem claim_c2_amended :
    (∀ (env : FetchEnv) (s : PollState2) (ws : List AlertWithEvent) (b : Bool),
      fetchJoin env = .ok ws →
      (fetchAlertsOnce2 b env s).knownAlertIds = (batchIds ws).toFinset) ∧
    (∀ (env : FetchEnv) (s : PollState) (ws : List AlertWithEvent),
      s.isFirstLoad = true → fetchJoin env = .ok ws →
      (fetchAlertsOnce1 env s).seenAlertIds = (batchIds ws).toFinset) ∧
    (∀ (env : FetchEnv) (s : PollState) (ws : List AlertWithEvent),
      s.isFirstLoad = false → fetchJoin env = .ok ws →
      (fetchAlertsOnce1 env s).seenAlertIds = s.seenAlertIds ∪ (batchIds ws).toFinset) ∧
    (∀ (env : FetchEnv) (s : PollState) (e : Option String),
      fetchJoin env = .error e →
      (fetchAlertsOnce1 env s).seenAlertIds = s.seenAlertIds) ∧
    (∀ (env : FetchEnv) (s : PollState2) (e : Option String) (b : Bool),
      fetchJoin env = .error e →
      (fetchAlertsOnce2 b env s).knownAlertIds = s.knownAlertIds) := by
  refine ⟨?_, ?_, ?_, ?_, ?_⟩
  · intro env s ws b hok
    simp [fetchAlertsOnce2, hok]
  · intro env s ws h1 hok
    simp [fetchAlertsOnce1, hok, h1]
  · intro env s ws h1 hok
    by_cases hex : ∃ x ∈ batchIds ws, x ∉ s.seenAlertIds
    · simp [fetchAlertsOnce1, hok, h1, hex, union_filter_not_mem]
    · have hsub : (batchIds ws).toFinset ⊆ s.seenAlertIds := by
        intro x hx
        by_contra hout
        exact hex ⟨x, List.mem_toFinset.mp hx, hout⟩
      have h2 : (fetchAlertsOnce1 env s).seenAlertIds = s.seenAlertIds := by
        simp [fetchAlertsOnce1, hok, h1, hex]
      rw [h2]
      exact (Finset.union_eq_left.mpr hsub).symm
  · intro env s e herr
    simp [fetchAlertsOnce1, herr]
  · intro env s e b herr
    simp [fetchAlertsOnce2, herr]

/-- Witness for the amended claim C2: concrete successful and failing
polls in both variants. -/
theorem claim_c2_amended_witness :
    (fetchJoin wEnvB = .ok wWithEventsB ∧
      (fetchAlertsOnce2 true wEnvB wS2).knownAlertIds = (batchIds wWithEventsB).toFinset) ∧
    (wS1First.isFirstLoad = true ∧
      (fetchAlertsOnce1 wEnvB wS1First).seenAlertIds = (batchIds wWithEventsB).toFinset) ∧
    (wS1.isFirstLoad = false ∧
      (fetchAlertsOnce1 wEnvB wS1).seenAlertIds = wS1.seenAlertIds ∪ (batchIds wWithEventsB).toFinset) ∧
    (fetchJoin wEnvFail = .error (some "boom") ∧
      (fetchAlertsOnce1 wEnvFail wS1).seenAlertIds = wS1.seenAlertIds) ∧
    ((fetchAlertsOnce2 false wEnvFail wS2).knownAlertIds = wS2.knownAlertIds) :=
  ⟨⟨rfl, claim_c2_amended.1 wEnvB wS2 wWithEventsB true rfl⟩,
   ⟨rfl, claim_c2_amended.2.1 wEnvB wS1First wWithEventsB rfl rfl⟩,
   ⟨rfl, claim_c2_amended.2.2.1 wEnvB wS1 wWithEventsB rfl rfl⟩,
   ⟨rfl, claim_c2_amended.2.2.2.1 wEnvFail wS1 (some "boom") rfl⟩,
   claim_c2_amended.2.2.2.2 wEnvFail wS2 (some "boom") false rfl⟩

/-- Counterexample to claim C3: in the part_002 knownAlertIdsRef
variant, the poller effect body that runs when the user identity
changes performs no ref reset, so starting from a state whose first
load already happened the first-load flag is still false and the
seen id a of the previous identity is still in the seen-id set before the
next fetch. -/
theorem claim_c3_counterexample :
    (onUserChange2 wS2).isFirstLoad = false ∧ (onUserChange2 wS2).knownAlertIds ≠ ∅ := by
  refine ⟨rfl, ?_⟩
  decide

/-- Claim C3 amended: in the part_001 variant a user change does reset
the seen-id set to empty and the first-load flag to true, and the
following fetch seeds the seen-id set from its results and never
fires.  In the part_002 variant the refs are not reset, but the first
fetch scheduled after a user change is invoked with shouldSignalNew
set to false, so it too never fires and replaces the seen-id set with
its own results when it succeeds. -/
theorem claim_c3_amended :
    (∀ (s : PollState),
      (onUserChange1 s).seenAlertIds = ∅ ∧ (onUserChange1 s).isFirstLoad = true) ∧
    (∀ (env : FetchEnv) (s : PollState),
      (fetchAlertsOnce1 env (onUserChange1 s)).dings = s.dings) ∧
    (∀ (env : FetchEnv) (s : PollState) (ws : List AlertWithEvent),
      fetchJoin env = .ok ws →
      (fetchAlertsOnce1 env (onUserChange1 s)).seenAlertIds = (batchIds ws).toFinset) ∧
    (∀ (env : FetchEnv) (s : PollState2),
      (fetchAlertsOnce2 false env s).dings = s.dings) ∧
    (∀ (env : FetchEnv) (s : PollState2) (ws : List AlertWithEvent),
      fetchJoin env = .ok ws →
      (fetchAlertsOnce2 false env s).knownAlertIds = (batchIds ws).toFinset) := by
  refine ⟨fun s => ⟨rfl, rfl⟩, ?_, ?_, ?_, ?_⟩
  · intro env s
    cases hj : fetchJoin env <;> simp [fetchAlertsOnce1, hj, onUserChange1]
  · intro env s ws hok
    simp [fetchAlertsOnce1, hok, onUserChange1]
  · intro env s
    cases hj : fetchJoin env <;> simp [fetchAlertsOnce2, hj]
  · intro env s ws hok
    simp [fetchAlertsOnce2, hok]

/-- Witness for the amended claim C3: a concrete user change followed
by a successful fetch, in both variants. -/
theorem claim_c3_amended_witness :
    ((onUserChange1 wS1).seenAlertIds = ∅ ∧ (onUserChange1 wS1).isFirstLoad = true) ∧
    ((fetchAlertsOnce1 wEnvB (onUserChange1 wS1)).dings = wS1.dings) ∧
    (fetchJoin wEnvB = .ok wWithEventsB ∧
      (fetchAlertsOnce1 wEnvB (onUserChange1 wS1)).seenAlertIds = (batchIds wWithEventsB).toFinset) ∧
    ((fetchAlertsOnce2 false wEnvB wS2).dings = wS2.dings) ∧
    ((fetchAlertsOnce2 false wEnvB wS2).knownAlertIds = (batchIds wWithEventsB).toFinset) :=
  ⟨claim_c3_amended.1 wS1,
   claim_c3_amended.2.1 wEnvB wS1,
   ⟨rfl, claim_c3_amended.2.2.1 wEnvB wS1 wWithEventsB rfl⟩,
   claim_c3_amended.2.2.2.1 wEnvB wS2,
   claim_c3_amended.2.2.2.2 wEnvB wS2 wWithEventsB rfl⟩

def wAlertC : AlertRow :=
  { id := "c", created_at := "t2", status := "active", trigger_event := .str "9", user_id := "u1" }

def wPage : PageState :=
  { alerts := [{ alert := wAlertB, event := none }, { alert := wAlertC, event := none }],
    loadingAlerts := false, alertsError := none,
    dismissingById := fun _ => false, isFirstLoad := false }

/-- Claim C4: dismissing an alert id removes exactly the alerts with
that id from the active list on success (all others remain), leaves
the list unchanged and surfaces a non-null error string on failure,
and on both paths the finally-block leaves the busy flag for that id
false. -/
theorem claim_c4 :
    ∀ (alertId : String) (outcome : Except (Option String) Unit) (s : PageState),
      (outcome = .ok () →
        ∀ a : AlertWithEvent,
          a ∈ (dismissAlert alertId outcome s).alerts ↔ a ∈ s.alerts ∧ a.alert.id ≠ alertId) ∧
      (∀ e, outcome = .error e →
        (dismissAlert alertId outcome s).alerts = s.alerts ∧
        (dismissAlert alertId outcome s).alertsError = some (e.getD "Failed to dismiss alert")) ∧
      (dismissAlert alertId outcome s).dismissingById alertId = false := by
  intro alertId outcome s
  refine ⟨?_, ?_, ?_⟩
  · intro hok a
    subst hok
    simp [dismissAlert, List.mem_filter]
  · intro e he
    subst he
    simp [dismissAlert]
  · cases outcome <;> simp [dismissAlert]

/-- Witness for claim C4: a concrete successful and a concrete failed
dismissal of alert b against a two-alert list. -/
theorem claim_c4_witness :
    ((⟨wAlertB, none⟩ : AlertWithEvent) ∈ (dismissAlert "b" (.ok ()) wPage).alerts ↔
      (⟨wAlertB, none⟩ : AlertWithEvent) ∈ wPage.alerts ∧
        (⟨wAlertB, none⟩ : AlertWithEvent).alert.id ≠ "b") ∧
    ((dismissAlert "b" (.error (some "boom")) wPage).alerts = wPage.alerts ∧
      (dismissAlert "b" (.error (some "boom")) wPage).alertsError =
        some ((some "boom").getD "Failed to dismiss alert")) ∧
    (dismissAlert "b" (.ok ()) wPage).dismissingById "b" = false ∧
    (dismissAlert "b" (.error (some "boom")) wPage).dismissingById "b" = false :=
  ⟨(claim_c4 "b" (.ok ()) wPage).1 rfl ⟨wAlertB, none⟩,
   (claim_c4 "b" (.error (some "boom")) wPage).2.1 (some "boom") rfl,
   (claim_c4 "b" (.ok ()) wPage).2.2,
   (claim_c4 "b" (.error (some "boom")) wPage).2.2⟩

/-- Claim C5: when the poll-cycle fetch fails (alerts query or events
query, network error or backend-reported error alike), a non-null
human-readable error string is set and the rest of the poller state is
untouched: the alerts list keeps its last-known value, the seen-id set
is not updated and no notification fires, in all three page
implementations. -/
theorem claim_c5 :
    ∀ (env : FetchEnv) (e : Option String),
      fetchJoin env = .error e →
      (∀ (s : PollState),
        (fetchAlertsOnce1 env s).alertsError = some (e.getD "Failed to load alerts") ∧
        (fetchAlertsOnce1 env s).alerts = s.alerts ∧
        (fetchAlertsOnce1 env s).seenAlertIds = s.seenAlertIds ∧
        (fetchAlertsOnce1 env s).dings = s.dings) ∧
      (∀ (s : PageState),
        (fetchAlertsOncePage env s).alertsError = some (e.getD "Failed to load alerts") ∧
        (fetchAlertsOncePage env s).alerts = s.alerts) ∧
      (∀ (s : PollState2) (b : Bool),
        (fetchAlertsOnce2 b env s).alertsError = some (e.getD "Failed to load alerts") ∧
        (fetchAlertsOnce2 b env s).alerts = s.alerts ∧
        (fetchAlertsOnce2 b env s).knownAlertIds = s.knownAlertIds ∧
        (fetchAlertsOnce2 b env s).dings = s.dings) := by
  intro env e herr
  refine ⟨fun s => ?_, fun s => ?_, fun s b => ?_⟩
  · refine ⟨?_, ?_, ?_, ?_⟩ <;> simp [fetchAlertsOnce1, herr]
  · refine ⟨?_, ?_⟩ <;> simp [fetchAlertsOncePage, herr]
  · refine ⟨?_, ?_, ?_, ?_⟩ <;> simp [fetchAlertsOnce2, herr]

/-- Witness for claim C5: a concrete failing fetch with message boom
applied to concrete states of all three implementations. -/
theorem claim_c5_witness :
    fetchJoin wEnvFail = .error (some "boom") ∧
    ((fetchAlertsOnce1 wEnvFail wS1).alertsError = some ((some "boom").getD "Failed to load alerts") ∧
      (fetchAlertsOnce1 wEnvFail wS1).alerts = wS1.alerts ∧
      (fetchAlertsOnce1 wEnvFail wS1).seenAlertIds = wS1.seenAlertIds ∧
      (fetchAlertsOnce1 wEnvFail wS1).dings = wS1.dings) ∧
    ((fetchAlertsOncePage wEnvFail wPage).alertsError = some ((some "boom").getD "Failed to load alerts") ∧
      (fetchAlertsOncePage wEnvFail wPage).alerts = wPage.alerts) ∧
    ((fetchAlertsOnce2 true wEnvFail wS2).alertsError = some ((some "boom").getD "Failed to load alerts") ∧
      (fetchAlertsOnce2 true wEnvFail wS2).alerts = wS2.alerts ∧
      (fetchAlertsOnce2 true wEnvFail wS2).knownAlertIds = wS2.knownAlertIds ∧
      (fetchAlertsOnce2 true wEnvFail wS2).dings = wS2.dings) :=
  ⟨rfl,
   (claim_c5 wEnvFail (some "boom") rfl).1 wS1,
   (claim_c5 wEnvFail (some "boom") rfl).2.1 wPage,
   (claim_c5 wEnvFail (some "boom") rfl).2.2 wS2 true⟩

/-- Claim C10: both the page.tsx poll cycle and the page.tsx
dismissal clear the alerts error string up front, so the final error
value is fully determined by the outcome of the present cycle and never
latches a previous error: after a successful fetch or dismissal the
error is none whatever it was before, and after a failure it is
exactly the new message. -/
theorem claim_c10 :
    ∀ (env : FetchEnv) (s : PageState),
      (∀ ws, fetchJoin env = .ok ws → (fetchAlertsOncePage env s).alertsError = none) ∧
      (∀ e, fetchJoin env = .error e →
        (fetchAlertsOncePage env s).alertsError = some (e.getD "Failed to load alerts")) ∧
      (∀ alertId, (dismissAlert alertId (.ok ()) s).alertsError = none) ∧
      (∀ alertId e,
        (dismissAlert alertId (.error e) s).alertsError =
          some (e.getD "Failed to dismiss alert")) := by
  intro env s
  refine ⟨?_, ?_, ?_, ?_⟩
  · intro ws hok
    simp [fetchAlertsOncePage, hok]
  · intro e herr
    simp [fetchAlertsOncePage, herr]
  · intro alertId
    simp [dismissAlert]
  · intro alertId e
    simp [dismissAlert]

/-- A page state carrying a stale error string from an earlier cycle. -/
def wPageStale : PageState :=
  { alerts := wPage.alerts, loadingAlerts := false, alertsError := some "stale",
    dismissingById := fun _ => false, isFirstLoad := false }

/-- Witness for claim C10: a stale error string is wiped by the next
successful fetch and by the next successful dismissal, and a failing
cycle installs the new message, not the stale one. -/
theorem claim_c10_witness :
    (fetchJoin wEnvB = .ok wWithEventsB ∧
      (fetchAlertsOncePage wEnvB wPageStale).alertsError = none) ∧
    (fetchJoin wEnvFail = .error (some "boom") ∧
      (fetchAlertsOncePage wEnvFail wPageStale).alertsError =
        some ((some "boom").getD "Failed to load alerts")) ∧
    (dismissAlert "b" (.ok ()) wPageStale).alertsError = none ∧
    (dismissAlert "b" (.error (some "boom")) wPageStale).alertsError =
      some ((some "boom").getD "Failed to dismiss alert") :=
  ⟨⟨rfl, (claim_c10 wEnvB wPageStale).1 wWithEventsB rfl⟩,
   ⟨rfl, (claim_c10 wEnvFail wPageStale).2.1 (some "boom") rfl⟩,
   (claim_c10 wEnvB wPageStale).2.2.1 "b",
   (claim_c10 wEnvB wPageStale).2.2.2 "b" (some "boom")⟩

/-- A storage environment in which only the object 42.mp4 exists (its
HEAD probe succeeds), public URLs are https prefixed paths, and
signing is unavailable. -/
def wMediaEnvMp4 : MediaEnv :=
  { headOk := fun url => url == "https://x/42.mp4",
    getOk := fun _ => false,
    publicUrl := fun path => "https://x/" ++ path,
    signedUrl := fun _ => none }

/-- Counterexample to claim C6: the page.tsx resolveMediaForEventId
only tries the candidate extensions mov and jpg, so with an existing
object 42.mp4 it resolves to null even though the claimed candidate
order mov, mp4, webm, jpg would have found the mp4 (as the part_002
variant, which does use that list, demonstrates). -/
theorem claim_c6_counterexample :
    urlExists wMediaEnvMp4 (wMediaEnvMp4.publicUrl ("42" ++ "." ++ "mp4")) = true ∧
    resolveMediaForEventIdPage wMediaEnvMp4 "42" = none ∧
    resolveMediaForEventId2 wMediaEnvMp4 "42" =
      some { url := "https://x/42.mp4", kind := .video } := by
  refine ⟨rfl, ?_, ?_⟩ <;> decide

lemma resolveLoopPage_eq_spec (env : MediaEnv) (eventId : String) :
    ∀ exts : List String,
      resolveLoopPage env eventId exts = specResolve (probePublic env) eventId exts := by
  intro exts
  induction exts with
  | nil => rfl
  | cons ext rest ih =>
    simp only [resolveLoopPage, specResolve, probePublic]
    by_cases h : env.publicUrl (eventId ++ "." ++ ext) ≠ "" ∧
        urlExists env (env.publicUrl (eventId ++ "." ++ ext)) = true
    · simp [h]
    · simp [h, ih]

lemma resolveLoop2_eq_spec (env : MediaEnv) (eventId : String) :
    ∀ exts : List String,
      resolveLoop2 env eventId exts = specResolve (probePublicOrSigned env) eventId exts := by
  intro exts
  induction exts with
  | nil => rfl
  | cons ext rest ih =>
    simp only [resolveLoop2, specResolve, probePublicOrSigned, probePublic]
    by_cases h : env.publicUrl (eventId ++ "." ++ ext) ≠ "" ∧
        urlExists env (env.publicUrl (eventId ++ "." ++ ext)) = true
    · simp [h]
    · cases hs : env.signedUrl (eventId ++ "." ++ ext) with
      | none => simp [h, hs, ih]
      | some su =>
        by_cases hu : urlExists env su = true
        · simp [h, hs, hu]
        · simp [h, hs, hu, ih]

/-- Claim C6 amended: both resolvers walk their candidate list in a
fixed order with video extensions before the image extension, probe
each candidate at path eventId.ext (HEAD first, then a one-byte ranged
GET, per urlExists), let the first successfully probed candidate win
with kind image iff its extension is in the image set, and return null
when no candidate resolves — but the page.tsx list is mov, jpg while
only the part_002 list is mov, mp4, webm, jpg, and part_002
additionally accepts a candidate through a signed-URL probe when the
public URL fails. -/
theorem claim_c6_amended :
    ∀ (env : MediaEnv) (eventId : String),
      resolveMediaForEventIdPage env eventId =
        specResolve (probePublic env) eventId ["mov", "jpg"] ∧
      resolveMediaForEventId2 env eventId =
        specResolve (probePublicOrSigned env) eventId ["mov", "mp4", "webm", "jpg"] := by
  intro env eventId
  exact ⟨resolveLoopPage_eq_spec env eventId candidateExtsPage,
         resolveLoop2_eq_spec env eventId candidateExts2⟩

lemma mediaEffectGo_sound (cache : List (String × Option Media)) :
    ∀ (ids : List String) (resolving : Finset String) (id : String),
      id ∈ mediaEffectGo cache ids resolving →
      recGet cache id = none ∧ id ∉ resolving := by
  intro ids
  induction ids with
  | nil =>
    intro resolving id h
    simp [mediaEffectGo] at h
  | cons x rest ih =>
    intro resolving id h
    simp only [mediaEffectGo] at h
    by_cases hc : recGet cache x = none ∧ x ∉ resolving
    · rw [if_pos hc] at h
      rcases List.mem_cons.mp h with heq | hmem
      · subst heq
        exact hc
      · have h2 := ih (insert x resolving) id hmem
        exact ⟨h2.1, fun hin => h2.2 (Finset.mem_insert_of_mem hin)⟩
    · rw [if_neg hc] at h
      exact ih resolving id h

/-- Claim C7: an event id whose media-cache entry is present (whether
a resolved value or null) or whose probe is already in flight never
starts a probe, neither in the active-alerts media effect nor in
togglePastExpanded, and a cache update never removes an entry, so a
cached id stays cached across the session. -/
theorem claim_c7 :
    ∀ (cache : List (String × Option Media)) (resolving : Finset String) (id : String),
      (∀ alerts : List AlertWithEvent,
        recGet cache id ≠ none ∨ id ∈ resolving →
        id ∉ mediaEffectStarts cache resolving alerts) ∧
      (∀ (expanded : List (String × Bool)) (alertId : String),
        recGet cache id ≠ none ∨ id ∈ resolving →
        toggleStartsProbe expanded cache resolving alertId id = false) ∧
      (∀ (k : String) (v : Option Media),
        recGet cache id ≠ none → recGet (cacheInsert cache k v) id ≠ none) := by
  intro cache resolving id
  refine ⟨?_, ?_, ?_⟩
  · intro alerts h hmem
    have h2 := mediaEffectGo_sound cache _ resolving id hmem
    rcases h with h | h
    · exact h h2.1
    · exact h2.2 h
  · intro expanded alertId h
    rcases h with h | h
    · simp [toggleStartsProbe, h]
    · simp [toggleStartsProbe, h]
  · intro k v h
    simp only [cacheInsert, recGet, List.find?]
    by_cases hk : (k == id) = true
    · simp [hk]
    · simp only [hk]
      simpa [recGet] using h

/-- A media cache holding a null resolution for event id 7 (no media
found earlier this session). -/
def wCache : List (String × Option Media) := [("7", none)]

/-- Witness for claim C7: with event id 7 cached as null and id 9 in
flight, neither the media effect over an alert batch referencing both
nor togglePastExpanded starts a probe for them, and inserting another
entry keeps 7 cached. -/
theorem claim_c7_witness :
    (recGet wCache "7" ≠ none ∧
      "7" ∉ mediaEffectStarts wCache {"9"} [{ alert := wAlertB, event := none }]) ∧
    ("9" ∈ ({"9"} : Finset String) ∧
      toggleStartsProbe [] wCache {"9"} "b" "9" = false) ∧
    (recGet (cacheInsert wCache "5" none) "7" ≠ none) :=
  ⟨⟨by decide, (claim_c7 wCache {"9"} "7").1 [{ alert := wAlertB, event := none }]
      (Or.inl (by decide))⟩,
   ⟨by decide, (claim_c7 wCache {"9"} "9").2.1 [] "b" (Or.inr (by decide))⟩,
   (claim_c7 wCache {"9"} "7").2.2 "5" none (by decide)⟩

lemma lookupLast_some (rows : List EventRow) (k : String) (e : EventRow) :
    lookupLast rows k = some e → e ∈ rows ∧ e.id.toStr = k := by
  intro h
  have hm := List.mem_of_find?_eq_some h
  have hp := List.find?_some h
  exact ⟨List.mem_reverse.mp hm, by simpa using hp⟩

lemma lookupLast_none (rows : List EventRow) (k : String) :
    lookupLast rows k = none → ∀ e ∈ rows, e.id.toStr ≠ k := by
  intro h e hmem
  have h2 := List.find?_eq_none.mp h e (List.mem_reverse.mpr hmem)
  simpa using h2

/-- Claim C8: the client-side join keeps the alert rows in order and
pairs each alert with a fetched event row whose stringified id equals
the stringified trigger_event of the alert (null exactly when no fetched
row matches), and the batched event lookup is issued over the distinct
set of referenced event ids — the same ids as in the batch, without
duplicates. -/
theorem claim_c8 :
    ∀ (eventRows : List EventRow) (baseAlerts : List AlertRow),
      ((joinEvents eventRows baseAlerts).map (fun x => x.alert) = baseAlerts) ∧
      (∀ x ∈ joinEvents eventRows baseAlerts,
        (∀ e, x.event = some e → e ∈ eventRows ∧ e.id.toStr = x.alert.trigger_event.toStr) ∧
        (x.event = none → ∀ e ∈ eventRows, e.id.toStr ≠ x.alert.trigger_event.toStr)) ∧
      (∀ v : IdVal,
        v ∈ referencedEventIds baseAlerts ↔ v ∈ baseAlerts.map (fun a => a.trigger_event)) ∧
      (referencedEventIds baseAlerts).Nodup := by
  intro eventRows baseAlerts
  refine ⟨?_, ?_, ?_, ?_⟩
  · unfold joinEvents
    rw [List.map_map]
    exact List.map_id'' (fun a => rfl) baseAlerts
  · intro x hx
    rcases List.mem_map.mp hx with ⟨a, _, rfl⟩
    constructor
    · intro e he
      exact lookupLast_some eventRows _ e he
    · intro hn
      exact lookupLast_none eventRows _ hn
  · intro v
    by_cases hlen : baseAlerts.length ≠ 0
    · simp [referencedEventIds, hlen, mem_jsDedup]
    · rw [not_ne_iff, List.length_eq_zero] at hlen
      subst hlen
      simp [referencedEventIds]
  · by_cases hlen : baseAlerts.length ≠ 0
    · unfold referencedEventIds
      rw [if_pos hlen]
      exact nodup_jsDedup _
    · rw [not_ne_iff, List.length_eq_zero] at hlen
      subst hlen
      simp [referencedEventIds]

/-- The event row for id 7 used by the C8 witness. -/
def wEv7 : EventRow := { id := .num 7, type := "fall_detected" }

/-- The two-alert batch used by the C8 witness: alert b references
event 7 numerically, alert c references event 9 as a string. -/
def wBase : List AlertRow := [wAlertB, wAlertC]

/-- Witness for claim C8: joining the batch b, c against the single
event row 7 matches b (whose numeric trigger 7 stringifies like the
row id) and leaves c null, and the referenced-id list is the distinct
id set. -/
theorem claim_c8_witness :
    ((joinEvents [wEv7] wBase).map (fun x => x.alert) = wBase) ∧
    ((⟨wAlertB, some wEv7⟩ : AlertWithEvent) ∈ joinEvents [wEv7] wBase ∧
      wEv7 ∈ [wEv7] ∧ wEv7.id.toStr = wAlertB.trigger_event.toStr) ∧
    ((⟨wAlertC, none⟩ : AlertWithEvent) ∈ joinEvents [wEv7] wBase ∧
      wEv7.id.toStr ≠ wAlertC.trigger_event.toStr) ∧
    ((IdVal.str "9") ∈ referencedEventIds wBase ↔
      (IdVal.str "9") ∈ wBase.map (fun a => a.trigger_event)) ∧
    (referencedEventIds wBase).Nodup :=
  ⟨(claim_c8 [wEv7] wBase).1,
   ⟨by decide,
    ((claim_c8 [wEv7] wBase).2.1 ⟨wAlertB, some wEv7⟩ (by decide)).1 wEv7 rfl⟩,
   ⟨by decide,
    ((claim_c8 [wEv7] wBase).2.1 ⟨wAlertC, none⟩ (by decide)).2 rfl wEv7 (by decide)⟩,
   (claim_c8 [wEv7] wBase).2.2.1 (IdVal.str "9"),
   (claim_c8 [wEv7] wBase).2.2.2⟩

/-- Claim C9: playDing never throws (its catch-all maps every failed
body run to a normal return with no sound) and leaves the poller state
— alerts list, seen-id set, error string, ding count — untouched in
both the part_001 and the part_002 audio implementations. -/
theorem claim_c9 :
    (∀ (env : AudioEnv) (s : FullState), (playDingFull env s).1.poll = s.poll) ∧
    (∀ (env : AudioEnv) (a a1 : AudioState),
      playDingBody env a = .error a1 → playDing env a = (a1, false)) ∧
    (∀ (env2 : AudioEnv2) (t : FullState2), (playDingFull2 env2 t).1.poll = t.poll) := by
  refine ⟨fun env s => rfl, ?_, fun env2 t => rfl⟩
  intro env a a1 h
  simp [playDing, h]

/-- An audio state with a suspended, unlocked context and no cached
buffer. -/
def wAudioSuspended : AudioState :=
  { ctx := some { suspended := true }, dingBufferLoaded := false, unlocked := true }

/-- A browser in which ctx.resume() throws. -/
def wAudioEnvFail : AudioEnv := { resumeOk := false, synthOk := true, startOk := true }

/-- Witness for claim C9: a playDing run whose resume call throws is
swallowed into a silent normal return, with the poller state intact. -/
theorem claim_c9_witness :
    playDingBody wAudioEnvFail wAudioSuspended = .error wAudioSuspended ∧
    playDing wAudioEnvFail wAudioSuspended = (wAudioSuspended, false) ∧
    (playDingFull wAudioEnvFail { poll := wS1, audio := wAudioSuspended }).1.poll = wS1 :=
  ⟨rfl,
   claim_c9.2.1 wAudioEnvFail wAudioSuspended wAudioSuspended rfl,
   claim_c9.1 wAudioEnvFail { poll := wS1, audio := wAudioSuspended }⟩

end Robopet
